import Mathlib

/-!
Verification of the TruthGuard AI client (src/frontend/app.js) against its
natural-language specification.  The client logic is shallowly embedded:
JS numbers are modelled as rationals, JS strings as `String`, possibly-absent
JS values (`undefined` on property access) as `Option`, DOM mutation as
explicit state passing over a `Dom` record, and a thrown JS exception as an
`Option JsError` result threaded alongside the state (mutations performed
before the throwing statement are retained, as in the real DOM).
-/

namespace TruthGuard

/-- JS `Math.round`: round half towards positive infinity. -/
def jsRound (q : Rat) : Int := ⌊q + 1/2⌋

/-- JS `String.prototype.toLowerCase`, embedded structurally over the
character list (ASCII-adequate for the strings this client handles). -/
def jsToLowerCase (s : String) : String := String.mk (s.data.map Char.toLower)

/-- Leading and trailing whitespace removal on a character list. -/
def trimmedCharList (l : List Char) : List Char :=
  ((l.dropWhile Char.isWhitespace).reverse.dropWhile Char.isWhitespace).reverse

/-- JS `String.prototype.trim`, embedded structurally over the character
list. -/
def jsTrim (s : String) : String := String.mk (trimmedCharList s.data)

/-- Whether the first list is an initial segment of the second. -/
def charPrefixOf : List Char → List Char → Bool
  | [], _ => true
  | _ :: _, [] => false
  | p :: ps, c :: cs => p == c && charPrefixOf ps cs

/-- JS `s.startsWith(pat)`, embedded structurally over character lists. -/
def jsStartsWith (s pat : String) : Bool := charPrefixOf pat.data s.data

/-- The `undefined`-tolerant rendering of `Math.round(x)` as the text stored by
`scoreElement.textContent` (app.js line 120): a missing score renders the
string produced by `Math.round(undefined) = NaN`. -/
def jsRoundStrOpt : Option Rat → String
  | some q => toString (jsRound q)
  | none => "NaN"

/-- The `undefined`-tolerant string stored by `textContent = s` for a possibly
missing string field. -/
def jsStrOpt : Option String → String
  | some s => s
  | none => "undefined"

/-- The colour-coding branch of `updateTrustScore` (app.js lines 127-136):
`score >= 80` gives "high", else `score >= 60` gives "medium", else "low". -/
def scoreBucket (score : Rat) : String :=
  if score ≥ 80 then "high"
  else if score ≥ 60 then "medium"
  else "low"

/-- Bucket of a possibly missing score: comparisons against `NaN` are false
in JS, so a missing score falls through to the final `else` branch. -/
def scoreBucketOpt : Option Rat → String
  | some q => scoreBucket q
  | none => "low"

/-- The ordering low < medium < high used by the spec's monotonicity law. -/
def bucketRank : String → Nat
  | "medium" => 1
  | "high" => 2
  | _ => 0

/-- The DOM writes performed by `updateTrustScore` (app.js lines 116-137):
the rounded score text, the verdict text, and the colour class added to the
score circle. -/
structure TrustScoreView where
  scoreText : String
  verdictText : String
  bucketClass : String
deriving Repr, DecidableEq

/-- The function `updateTrustScore(score, verdict)` (app.js lines 116-137), over possibly
missing arguments as delivered by raw-payload property access. -/
def updateTrustScore (score : Option Rat) (verdict : Option String) :
    TrustScoreView :=
  { scoreText := jsRoundStrOpt score
    verdictText := jsStrOpt verdict
    bucketClass := scoreBucketOpt score }

example : scoreBucket 150 = "high" := by rfl
example : jsRound 150 = 150 := by norm_num [jsRound]
example : scoreBucket 65 = "medium" := by rfl
example : scoreBucket (59/2) = "low" := by norm_num [scoreBucket]

/-- One claim object of the wire payload (spec section 6): fields as read by
`displayClaims` (app.js lines 143-161). -/
structure Claim where
  claim_text : String
  trust_level : String
  confidence : Rat
  explanation : String
  manipulation_techniques : List String
deriving Repr, DecidableEq

/-- The DOM element built for one claim by the template literal of
`displayClaims` (app.js lines 147-161). -/
structure RenderedClaim where
  itemClass : String
  indexText : String
  statusClass : String
  statusText : String
  confidenceText : String
  text : String
  explanationText : String
  techniquesSection : Option (List String)
deriving Repr, DecidableEq

/-- The element `displayClaims` builds for the claim at position `index`
(app.js lines 143-161): the trust level is lowercased into the CSS classes
and rendered verbatim as the status text; the techniques block is emitted
only when `manipulation_techniques` is non-empty. -/
def renderClaim (index : Nat) (c : Claim) : RenderedClaim :=
  { itemClass := "claim-item " ++ jsToLowerCase c.trust_level
    indexText := "#" ++ toString (index + 1)
    statusClass := "claim-status " ++ jsToLowerCase c.trust_level
    statusText := c.trust_level
    confidenceText := toString (jsRound c.confidence) ++ "% confidence"
    text := c.claim_text
    explanationText := c.explanation
    techniquesSection :=
      if c.manipulation_techniques.length > 0 then
        some c.manipulation_techniques
      else none }

/-- The `claims.forEach((claim, index) => ...)` loop of `displayClaims`
(app.js lines 139-165): elements are appended in iteration order starting
from the given index. -/
def displayClaimsFrom (index : Nat) : List Claim → List RenderedClaim
  | [] => []
  | c :: cs => renderClaim index c :: displayClaimsFrom (index + 1) cs

/-- The function `displayClaims(claims)` (app.js lines 139-165): clears the list and
appends one rendered element per claim, in response order. -/
def displayClaims (claims : List Claim) : List RenderedClaim :=
  displayClaimsFrom 0 claims

/-- One value of the `technique_explanations` mapping (spec section 3). -/
structure Explanation where
  description : String
  detection_tips : Option (List String)
deriving Repr, DecidableEq

/-- The `educational_insights` object as read by `displayEducationalInsights`
(app.js lines 178-215).  All three internal fields may independently be
absent (`undefined`); a present `technique_explanations` is modelled as an
association list standing for the JS object. -/
structure Insights where
  manipulation_techniques_detected : Option (List String)
  technique_explanations : Option (List (String × Explanation))
  verification_tips : Option (List String)
deriving Repr, DecidableEq

/-- JS object property access `insights.technique_explanations[tech]`:
exact string key lookup, `undefined` when the key is absent. -/
def lookupExplanation (m : List (String × Explanation)) (k : String) :
    Option Explanation :=
  (m.find? (fun p => p.1 == k)).map (fun p => p.2)

/-- JS `a || b` on a string `a`: the empty string is falsy. -/
def jsOrString (a b : String) : String := if a = "" then b else a

/-- One `technique-explanation` block of the educational section. -/
structure TechniqueView where
  name : String
  description : String
  tips : Option (List String)
deriving Repr, DecidableEq

/-- The block rendered for one detected technique (app.js lines 190-196):
`technique_explanations[tech]?.description || 'Technique used to mislead
readers'` and the optional detection-tips line. -/
def renderTechnique (m : List (String × Explanation)) (tech : String) :
    TechniqueView :=
  { name := tech
    description :=
      jsOrString
        (match lookupExplanation m tech with
          | some e => e.description
          | none => "")
        "Technique used to mislead readers"
    tips :=
      match lookupExplanation m tech with
      | some e => e.detection_tips
      | none => none }

/-- A JS exception observed by the `catch` blocks of `analyzeText` and
`analyzeImage`. -/
inductive JsError
  | typeError
  | httpError (status : Nat)
  | networkError
  | parseError
deriving Repr, DecidableEq

/-- The content written into `educationalContent` (app.js lines 178-215). -/
structure EduView where
  techniques : Option (List TechniqueView)
  verificationTips : Option (List String)
deriving Repr, DecidableEq

/-- The state of `educationalContent` right after the `innerHTML = ''` clear
at the top of `displayEducationalInsights` (app.js line 182). -/
def emptyEduView : EduView :=
  { techniques := none, verificationTips := none }

/-- The function `displayEducationalInsights(insights)` (app.js lines
178-215): the content is cleared first; the techniques subsection is built
only when `manipulation_techniques_detected` is present and non-empty,
mapping each detected technique in order — but building its template
evaluates `insights.technique_explanations[tech]` with the optional chain
placed only after the index, so when `technique_explanations` is absent
while techniques are detected, a TypeError is thrown and nothing beyond the
clear happens; otherwise the verification-tips subsection is rendered when
`verification_tips` is present. -/
def displayEducationalInsights (ins : Insights) : EduView × Option JsError :=
  match ins.manipulation_techniques_detected with
  | some l =>
    if l.length > 0 then
      match ins.technique_explanations with
      | none => (emptyEduView, some JsError.typeError)
      | some m =>
        ({ techniques := some (l.map (renderTechnique m))
           verificationTips := ins.verification_tips }, none)
    else ({ techniques := none, verificationTips := ins.verification_tips }, none)
  | none => ({ techniques := none, verificationTips := ins.verification_tips }, none)

/-- A raw verdict payload as produced by `response.json()`: every field the
client reads may be absent, in which case JS property access yields
`undefined`.  (Spec section 6 wire shape.) -/
structure RawResult where
  overall_trust_score : Option Rat
  overall_verdict : Option String
  claims : Option (List Claim)
  explanation : Option String
  sources : Option (List String)
  educational_insights : Option Insights
deriving Repr, DecidableEq

/-- The mutable document state touched by the client. -/
structure Dom where
  resultsVisible : Bool := false
  trustScoreText : Option String := none
  verdictText : Option String := none
  bucketClass : Option String := none
  claimsList : List RenderedClaim := []
  explanationText : Option String := none
  sourcesList : List String := []
  educationalView : Option EduView := none
  loadingVisible : Bool := false
  alerts : List String := []
  currentTab : String := "text"
deriving Repr, DecidableEq

/-- The function `displayResults(result)` (app.js lines 88-114), executed statement by
statement: the results section is shown and the trust score is written
before the claims are iterated.  `displayClaims` clears the claims list
(`innerHTML = ''`, app.js line 141) before `claims.forEach`, so a missing
`claims` field empties the list and then throws a TypeError; likewise
`displaySources` clears the sources list (line 169) before `sources.forEach`
throws.  A thrown `displayEducationalInsights` leaves its cleared content in
place.  Mutations made before the throwing statement are retained in the
returned state. -/
def displayResults (r : RawResult) (d : Dom) : Dom × Option JsError :=
  let tv := updateTrustScore r.overall_trust_score r.overall_verdict
  let d2 : Dom :=
    { d with
      resultsVisible := true
      trustScoreText := some tv.scoreText
      verdictText := some tv.verdictText
      bucketClass := some tv.bucketClass }
  match r.claims with
  | none => ({ d2 with claimsList := [] }, some JsError.typeError)
  | some cs =>
    let d3 : Dom := { d2 with claimsList := displayClaims cs }
    let d4 : Dom := { d3 with explanationText := some (jsStrOpt r.explanation) }
    match r.sources with
    | none => ({ d4 with sourcesList := [] }, some JsError.typeError)
    | some ss =>
      let d5 : Dom := { d4 with sourcesList := ss }
      match r.educational_insights with
      | none => (d5, none)
      | some ins =>
        let ev := displayEducationalInsights ins
        ({ d5 with educationalView := some ev.1 }, ev.2)

/-- The outcome of one `fetch` of a check endpoint, as seen by the
surrounding `try` block: a parsed JSON body when `response.ok`, a thrown
`Error` on a non-ok HTTP status, a rejected fetch on network failure, or a
rejected `response.json()`. -/
inductive FetchOutcome
  | ok (r : RawResult)
  | httpError (status : Nat)
  | networkError
  | parseError
deriving Repr, DecidableEq

/-- The body of the `try` block shared by `analyzeText` (app.js lines 59-79)
and `analyzeImage` (lines 247-264) once the fetch outcome is fixed: a non-ok
status throws, a network or parse failure rejects, and an ok response is
handed to `displayResults`, which may itself throw mid-render. -/
def tryDisplay (fetch : FetchOutcome) (d : Dom) : Dom × Option JsError :=
  match fetch with
  | FetchOutcome.ok r => displayResults r d
  | FetchOutcome.httpError s => (d, some (JsError.httpError s))
  | FetchOutcome.networkError => (d, some JsError.networkError)
  | FetchOutcome.parseError => (d, some JsError.parseError)

/-- The function `analyzeText()` (app.js lines 50-86) with the network outcome supplied
as a parameter; returns the final document state and the number of network
calls performed.  Empty trimmed content alerts and returns before the fetch;
otherwise the loading modal is shown, the `try`/`catch`/`finally` runs, and
`finally` hides the loading modal. -/
def analyzeText (input : String) (fetch : FetchOutcome) (d : Dom) :
    Dom × Nat :=
  let content := jsTrim input
  if content = "" then
    ({ d with alerts := d.alerts ++ ["Please enter some content to analyze."] },
     0)
  else
    let d1 : Dom := { d with loadingVisible := true }
    let step := tryDisplay fetch d1
    let d2 : Dom :=
      match step.2 with
      | some _ =>
        { step.1 with
          alerts := step.1.alerts ++ ["Failed to analyze content. Please try again."] }
      | none => step.1
    ({ d2 with loadingVisible := false }, 1)

/-- A JS `File` as read by the upload handlers: only `type` matters here. -/
structure JsFile where
  name : String
  mimeType : String
deriving Repr, DecidableEq

/-- The handler `handleImageUpload(event)` (app.js lines 217-222): takes
`event.target.files[0]` and previews it whenever a file is present — no
MIME-type check is made on the file-picker path.  Returns the file handed to
`displayImagePreview` (whose analyze button then submits exactly that file),
or `none` when no file was selected. -/
def handleImageUpload (files : List JsFile) : Option JsFile :=
  files.head?

/-- The handler `handleImageDrop(event)` (app.js lines 224-231): takes
`event.dataTransfer.files[0]` and previews it only when its MIME type starts
with `image/`; otherwise the drop is silently ignored. -/
def handleImageDrop (files : List JsFile) : Option JsFile :=
  match files.head? with
  | some f => if jsStartsWith f.mimeType "image/" then some f else none
  | none => none

/-- The function `analyzeImage(file)` (app.js lines 244-272) with the network outcome
supplied as a parameter: shows the loading modal, always performs the fetch
(no MIME-type check), switches to the text tab before rendering an ok
result, alerts on any thrown error, and hides the loading modal in
`finally`.  Returns the final document state and the list of multipart
bodies sent over the network (its length is the number of network calls
performed; the fetch always happens, carrying exactly the given file). -/
def analyzeImage (file : JsFile) (fetch : FetchOutcome) (d : Dom) :
    Dom × List JsFile :=
  let d1 : Dom := { d with loadingVisible := true }
  let step :=
    match fetch with
    | FetchOutcome.ok r =>
      displayResults r { d1 with currentTab := "text" }
    | FetchOutcome.httpError s => (d1, some (JsError.httpError s))
    | FetchOutcome.networkError => (d1, some JsError.networkError)
    | FetchOutcome.parseError => (d1, some JsError.parseError)
  let d2 : Dom :=
    match step.2 with
    | some _ =>
      { step.1 with
        alerts := step.1.alerts ++ ["Failed to analyze image. Please try again."] }
    | none => step.1
  ({ d2 with loadingVisible := false }, [file])

/-- The completion handler of an in-flight text request (app.js lines
77-78): the parsed result is rendered unconditionally — no session identity
is attached to the response and nothing compares it against a current
session before mutating state. -/
def applyResponse (d : Dom) (r : RawResult) : Dom :=
  (displayResults r d).1

/-- Event-driven interleaving of response completions: single-threaded
handlers run to completion in arrival order. -/
def runArrivals (d : Dom) : List RawResult → Dom
  | [] => d
  | r :: rs => runArrivals (applyResponse d r) rs

/-! ## Theorems -/

theorem jsRound_150 : jsRound 150 = 150 := by norm_num [jsRound]

theorem jsRound_92 : jsRound 92 = 92 := by norm_num [jsRound]

theorem jsRound_10 : jsRound 10 = 10 := by norm_num [jsRound]

/-- C1 counterexample: an `overall_trust_score` of 150 is projected to the
bucket "high", but the stored score text is "150", not the clamped "100"
claimed by the spec — `updateTrustScore` stores `Math.round(score)` with no
range check. -/
theorem updateTrustScore_150_not_clamped :
    (updateTrustScore (some 150) (some "Verified")).bucketClass = "high" ∧
    (updateTrustScore (some 150) (some "Verified")).scoreText = "150" ∧
    (updateTrustScore (some 150) (some "Verified")).scoreText ≠ "100" := by
  refine ⟨rfl, ?_, ?_⟩
  · show toString (jsRound 150) = "150"
    rw [jsRound_150]
    decide
  · show toString (jsRound 150) ≠ "100"
    rw [jsRound_150]
    decide

/-- C1 amended: out-of-range trust scores are not clamped (and not
rejected): `updateTrustScore` stores `Math.round(score)` verbatim for every
score, so an input with `overallTrustScore = 150` projects to bucket "high"
with a stored score text of "150", not 100. -/
theorem updateTrustScore_stores_round_verbatim :
    (∀ s : Rat, ∀ v : String,
      (updateTrustScore (some s) (some v)).scoreText = toString (jsRound s)) ∧
    (updateTrustScore (some 150) (some "Verified")).bucketClass = "high" ∧
    (updateTrustScore (some 150) (some "Verified")).scoreText = "150" := by
  refine ⟨fun s v => rfl, rfl, ?_⟩
  show toString (jsRound 150) = "150"
  rw [jsRound_150]
  decide

/-- C3: the trust-score bucketing of `updateTrustScore` is total (every
score lands in high, medium or low), matches the spec thresholds
(score ≥ 80 high, 60 ≤ score < 80 medium, score < 60 low), and is monotone
under the ordering low < medium < high. -/
theorem scoreBucket_total_monotone :
    (∀ s : Rat, scoreBucket s = "high" ∨ scoreBucket s = "medium" ∨
      scoreBucket s = "low") ∧
    (∀ s : Rat, 80 ≤ s → scoreBucket s = "high") ∧
    (∀ s : Rat, 60 ≤ s → s < 80 → scoreBucket s = "medium") ∧
    (∀ s : Rat, s < 60 → scoreBucket s = "low") ∧
    (∀ s1 s2 : Rat, s1 ≤ s2 →
      bucketRank (scoreBucket s1) ≤ bucketRank (scoreBucket s2)) := by
  refine ⟨?_, ?_, ?_, ?_, ?_⟩
  · intro s
    unfold scoreBucket
    split_ifs <;> simp
  · intro s h
    simp [scoreBucket, h]
  · intro s h1 h2
    simp [scoreBucket, h1, not_le.mpr h2]
  · intro s h
    have h1 : ¬ s ≥ 80 := by linarith
    have h2 : ¬ s ≥ 60 := by linarith
    simp [scoreBucket, h1, h2]
  · intro s1 s2 h
    unfold scoreBucket
    split_ifs <;>
      simp_all [bucketRank] <;>
      linarith

/-- Witness for C3 at concrete scores 65 ≤ 92. -/
theorem scoreBucket_total_monotone_witness :
    bucketRank (scoreBucket 65) ≤ bucketRank (scoreBucket 92) :=
  scoreBucket_total_monotone.2.2.2.2 65 92 (by norm_num)

/-- C4 counterexample: a claim whose `trust_level` is "unknown" is rendered
with status text "unknown" and CSS class "claim-status unknown" — it is not
normalized to MEDIUM (nor to any of the three levels). -/
theorem renderClaim_unknown_not_medium :
    (renderClaim 0 ⟨"c", "unknown", 50, "e", []⟩).statusText = "unknown" ∧
    (renderClaim 0 ⟨"c", "unknown", 50, "e", []⟩).statusText ≠ "MEDIUM" ∧
    (renderClaim 0 ⟨"c", "unknown", 50, "e", []⟩).statusClass =
      "claim-status unknown" := by
  refine ⟨rfl, by decide, ?_⟩
  show "claim-status " ++ jsToLowerCase "unknown" = "claim-status unknown"
  decide

/-- C4 amended: `displayClaims` performs no normalization of `trust_level`:
the wire string is rendered verbatim as the status text and only lowercased
into the CSS classes, so an unrecognized value such as "unknown" renders as
"unknown" — it maps neither to MEDIUM nor to HIGH. -/
theorem renderClaim_trust_level_verbatim :
    (∀ i : Nat, ∀ c : Claim,
      (renderClaim i c).statusText = c.trust_level ∧
      (renderClaim i c).statusClass =
        "claim-status " ++ jsToLowerCase c.trust_level ∧
      (renderClaim i c).itemClass =
        "claim-item " ++ jsToLowerCase c.trust_level) ∧
    (renderClaim 0 ⟨"c", "unknown", 50, "e", []⟩).statusText = "unknown" := by
  exact ⟨fun i c => ⟨rfl, rfl, rfl⟩, rfl⟩

/-- C2: submitting text that is empty after trimming alerts locally and
returns before the fetch — zero network calls, only the validation alert is
appended, and the rest of the document (including the loading modal) is
untouched. -/
theorem analyzeText_empty_no_network (input : String) (fetch : FetchOutcome)
    (d : Dom) (h : jsTrim input = "") :
    (analyzeText input fetch d).2 = 0 ∧
    (analyzeText input fetch d).1 =
      { d with
        alerts := d.alerts ++ ["Please enter some content to analyze."] } := by
  unfold analyzeText
  rw [h]
  exact ⟨rfl, rfl⟩

/-- Witness for C2 on whitespace-only input. -/
theorem analyzeText_empty_no_network_witness :
    (analyzeText "   " FetchOutcome.networkError {}).2 = 0 ∧
    (analyzeText "   " FetchOutcome.networkError {}).1 =
      { ({} : Dom) with
        alerts :=
          ({} : Dom).alerts ++ ["Please enter some content to analyze."] } :=
  analyzeText_empty_no_network "   " FetchOutcome.networkError {} (by decide)

/-- C5 counterexample: a PDF selected through the file picker is previewed
without any MIME-type check, and `analyzeImage` then submits it over the
network (one call, carrying the PDF) — no `UnsupportedMediaError` exists and
no check runs before the call. -/
theorem analyzeImage_nonimage_reaches_network :
    jsStartsWith (JsFile.mk "doc.pdf" "application/pdf").mimeType "image/" =
      false ∧
    handleImageUpload [JsFile.mk "doc.pdf" "application/pdf"] =
      some (JsFile.mk "doc.pdf" "application/pdf") ∧
    (analyzeImage (JsFile.mk "doc.pdf" "application/pdf")
        (FetchOutcome.httpError 415) {}).2 =
      [JsFile.mk "doc.pdf" "application/pdf"] := by
  refine ⟨by decide, rfl, rfl⟩

/-- C5 amended: only the drag-and-drop path checks the MIME type, and a
failing file is silently ignored (no preview, no error, no network call);
the file-picker path previews whatever file is present with no check, and
`analyzeImage` always performs exactly one network call carrying the file
it was given, image or not. -/
theorem imagePath_mime_handling :
    (∀ files : List JsFile, handleImageUpload files = files.head?) ∧
    (∀ files : List JsFile, ∀ f : JsFile, handleImageDrop files = some f →
      jsStartsWith f.mimeType "image/" = true ∧ files.head? = some f) ∧
    (∀ f : JsFile, ∀ fetch : FetchOutcome, ∀ d : Dom,
      (analyzeImage f fetch d).2 = [f]) := by
  refine ⟨fun files => rfl, ?_, ?_⟩
  · intro files f h
    unfold handleImageDrop at h
    match hh : files.head? with
    | none => rw [hh] at h; exact absurd h (by simp)
    | some g =>
      rw [hh] at h
      by_cases hs : jsStartsWith g.mimeType "image/" = true
      · simp [hs] at h
        subst h
        exact ⟨hs, rfl⟩
      · simp [hs] at h
  · intro f fetch d
    unfold analyzeImage
    cases fetch <;> rfl

/-- Witness for C5's amended statement: a dropped PNG passes the drop-path
check. -/
theorem imagePath_mime_handling_witness :
    jsStartsWith (JsFile.mk "a.png" "image/png").mimeType "image/" = true ∧
    ([JsFile.mk "a.png" "image/png"]).head? =
      some (JsFile.mk "a.png" "image/png") :=
  imagePath_mime_handling.2.1 [JsFile.mk "a.png" "image/png"]
    (JsFile.mk "a.png" "image/png") (by decide)

theorem displayClaimsFrom_length (k : Nat) (cs : List Claim) :
    (displayClaimsFrom k cs).length = cs.length := by
  induction cs generalizing k with
  | nil => rfl
  | cons c t ih => simp [displayClaimsFrom, ih]

theorem displayClaimsFrom_get (cs : List Claim) (k i : Nat)
    (h1 : i < cs.length) (h2 : i < (displayClaimsFrom k cs).length) :
    (displayClaimsFrom k cs).get ⟨i, h2⟩ = renderClaim (k + i) (cs.get ⟨i, h1⟩) := by
  induction cs generalizing k i with
  | nil => exact absurd h1 (by simp)
  | cons c t ih =>
    cases i with
    | zero => rfl
    | succ n =>
      have hn1 : n < t.length := Nat.lt_of_succ_lt_succ h1
      have hn2 : n < (displayClaimsFrom (k + 1) t).length := by
        rw [displayClaimsFrom_length]; exact hn1
      have := ih (k + 1) n hn1 hn2
      simp [displayClaimsFrom, List.get] at this ⊢
      rw [this]
      congr 1
      omega

/-- C6: `displayClaims` preserves the response's claim order verbatim: it
renders exactly one element per claim, the element at position i is the
rendering of the i-th input claim at index i, and the sequence of rendered
claim texts equals the sequence of input claim texts — no re-sorting,
insertion, or omission, for any claim list. -/
theorem displayClaims_preserves_order (claims : List Claim) :
    (displayClaims claims).length = claims.length ∧
    (∀ i : Nat, ∀ h1 : i < claims.length,
      ∀ h2 : i < (displayClaims claims).length,
      (displayClaims claims).get ⟨i, h2⟩ = renderClaim i (claims.get ⟨i, h1⟩)) ∧
    (displayClaims claims).map (fun rc => rc.text) =
      claims.map (fun c => c.claim_text) := by
  refine ⟨displayClaimsFrom_length 0 claims, ?_, ?_⟩
  · intro i h1 h2
    have := displayClaimsFrom_get claims 0 i h1 h2
    simpa using this
  · unfold displayClaims
    generalize 0 = k
    induction claims generalizing k with
    | nil => rfl
    | cons c t ih => simp [displayClaimsFrom, renderClaim, ih]

/-- Witness for C6 at a concrete two-claim list, index 1. -/
theorem displayClaims_preserves_order_witness :
    (displayClaims
        [Claim.mk "a" "high" 90 "ea" [], Claim.mk "b" "low" 10 "eb" ["fear"]]).get
      ⟨1, by decide⟩ =
    renderClaim 1 (Claim.mk "b" "low" 10 "eb" ["fear"]) :=
  (displayClaims_preserves_order _).2.1 1 (by decide) _

/-- C7 counterexample: a transport-successful payload that carries a trust
score but is missing the required `claims` field throws a TypeError at
`claims.forEach` — yet the results section has already been shown and the
trust score "92" already rendered, so partial data from the malformed
payload is on screen. -/
theorem displayResults_missing_claims_renders_partially :
    (displayResults
        (RawResult.mk (some 92) (some "Verified") none (some "ok") (some [])
          none) {}).2 = some JsError.typeError ∧
    (displayResults
        (RawResult.mk (some 92) (some "Verified") none (some "ok") (some [])
          none) {}).1.trustScoreText = some "92" ∧
    (displayResults
        (RawResult.mk (some 92) (some "Verified") none (some "ok") (some [])
          none) {}).1.resultsVisible = true := by
  refine ⟨rfl, ?_, rfl⟩
  show some (toString (jsRound 92)) = some "92"
  rw [jsRound_92]
  decide

theorem displayResults_claims_none (r : RawResult) (d : Dom)
    (h : r.claims = none) :
    displayResults r d =
      ({ d with
          resultsVisible := true
          trustScoreText := some (jsRoundStrOpt r.overall_trust_score)
          verdictText := some (jsStrOpt r.overall_verdict)
          bucketClass := some (scoreBucketOpt r.overall_trust_score)
          claimsList := [] },
       some JsError.typeError) := by
  rcases r with ⟨ts, v, cl, ex, so, ei⟩
  simp only at h
  subst h
  rfl

/-- C7 amended: a payload with a missing required `claims` field does
surface as a generic failure alert (the thrown TypeError is caught by
`analyzeText`), but rendering is not blocked atomically: the results
section is shown and the trust score and verdict of the malformed payload
are rendered before the failing statement, so partial data is rendered —
and the claims list is emptied, since `displayClaims` clears it before the
`forEach` throws, wiping whatever a previous render had put there. -/
theorem analyzeText_malformed_partial_render (input : String) (r : RawResult)
    (d : Dom) (h1 : ¬ jsTrim input = "") (h2 : r.claims = none) :
    (analyzeText input (FetchOutcome.ok r) d).1.alerts =
      d.alerts ++ ["Failed to analyze content. Please try again."] ∧
    (analyzeText input (FetchOutcome.ok r) d).1.resultsVisible = true ∧
    (analyzeText input (FetchOutcome.ok r) d).1.trustScoreText =
      some (jsRoundStrOpt r.overall_trust_score) ∧
    (analyzeText input (FetchOutcome.ok r) d).1.verdictText =
      some (jsStrOpt r.overall_verdict) ∧
    (analyzeText input (FetchOutcome.ok r) d).1.claimsList = [] := by
  have hres :=
    displayResults_claims_none r { d with loadingVisible := true } h2
  simp only [analyzeText, if_neg h1, tryDisplay, hres]
  simp

/-- Witness for C7's amended statement on a concrete malformed payload. -/
theorem analyzeText_malformed_partial_render_witness :
    (analyzeText "hello"
        (FetchOutcome.ok
          (RawResult.mk (some 92) (some "Verified") none (some "ok") (some [])
            none)) {}).1.alerts =
      ({} : Dom).alerts ++ ["Failed to analyze content. Please try again."] ∧
    (analyzeText "hello"
        (FetchOutcome.ok
          (RawResult.mk (some 92) (some "Verified") none (some "ok") (some [])
            none)) {}).1.resultsVisible = true ∧
    (analyzeText "hello"
        (FetchOutcome.ok
          (RawResult.mk (some 92) (some "Verified") none (some "ok") (some [])
            none)) {}).1.trustScoreText = some (jsRoundStrOpt (some 92)) ∧
    (analyzeText "hello"
        (FetchOutcome.ok
          (RawResult.mk (some 92) (some "Verified") none (some "ok") (some [])
            none)) {}).1.verdictText = some (jsStrOpt (some "Verified")) ∧
    (analyzeText "hello"
        (FetchOutcome.ok
          (RawResult.mk (some 92) (some "Verified") none (some "ok") (some [])
            none)) {}).1.claimsList = [] :=
  analyzeText_malformed_partial_render "hello" _ {} (by decide) rfl

theorem displayResults_writes_score (r : RawResult) (d : Dom) :
    (displayResults r d).1.trustScoreText =
      some (jsRoundStrOpt r.overall_trust_score) := by
  unfold displayResults
  rcases r with ⟨ts, v, cl, ex, so, ei⟩
  cases cl <;> cases so <;> cases ei <;> simp [updateTrustScore]

/-- C8 counterexample: two rapid submissions where the first request's
response (score 10) arrives after the second's (score 92): both completion
handlers run unconditionally, so the stale first response overwrites the
second and the final trust score shown is "10", not the second request's
"92" — the claimed stale-session guard does not exist. -/
theorem runArrivals_stale_overwrites :
    (runArrivals {}
        [RawResult.mk (some 92) (some "Verified") (some []) (some "ok")
          (some []) none,
         RawResult.mk (some 10) (some "False") (some []) (some "bad")
          (some []) none]).trustScoreText = some "10" ∧
    ¬ (runArrivals {}
        [RawResult.mk (some 92) (some "Verified") (some []) (some "ok")
          (some []) none,
         RawResult.mk (some 10) (some "False") (some []) (some "bad")
          (some []) none]).trustScoreText = some "92" := by
  have h : (runArrivals {}
      [RawResult.mk (some 92) (some "Verified") (some []) (some "ok")
        (some []) none,
       RawResult.mk (some 10) (some "False") (some []) (some "bad")
        (some []) none]).trustScoreText = some (toString (jsRound 10)) := rfl
  rw [jsRound_10] at h
  exact ⟨h, by rw [h]; decide⟩

/-- C8 amended: there is no stale-response guard: no session identity is
attached to a response and none is checked before state mutation; completion
handlers run in arrival order and each overwrites the rendered state, so
whichever response arrives last wins — in the two-rapid-submissions
scenario the final state reflects the first (superseded) request's result,
not the second's. -/
theorem runArrivals_last_arrival_wins (d : Dom) (history : List RawResult)
    (r : RawResult) :
    (runArrivals d (history ++ [r])).trustScoreText =
      some (jsRoundStrOpt r.overall_trust_score) := by
  induction history generalizing d with
  | nil => exact displayResults_writes_score r d
  | cons a t ih => exact ih (applyResponse d a)

/-- C9 counterexample: a technique whose explanation entry exists but has an
empty description is rendered with the placeholder, not with the entry's
description — `?.description || default` treats the empty string as falsy,
so "when an entry exists its description is used" fails. -/
theorem renderTechnique_empty_description_placeholder :
    lookupExplanation [("clickbait", Explanation.mk "" none)] "clickbait" =
      some (Explanation.mk "" none) ∧
    (renderTechnique [("clickbait", Explanation.mk "" none)]
        "clickbait").description = "Technique used to mislead readers" ∧
    ¬ (renderTechnique [("clickbait", Explanation.mk "" none)]
        "clickbait").description = "" := by
  refine ⟨rfl, rfl, by decide⟩

/-- C9 amended: when `technique_explanations` is present, every detected
technique is rendered, in order and never omitted; a technique with no
matching entry gets the placeholder description, and so does a technique
whose entry carries an empty description (JS `||` falsiness); an entry with
a non-empty description is rendered with that description.  When
`technique_explanations` is absent while techniques are detected, building
the template throws a TypeError and no technique is rendered at all — the
educational content is left cleared and the error escalates. -/
theorem displayEducationalInsights_techniques :
    (∀ ins : Insights, ∀ l : List String,
      ∀ m : List (String × Explanation),
      ins.manipulation_techniques_detected = some l → ¬ l = [] →
      ins.technique_explanations = some m →
      (displayEducationalInsights ins).1.techniques =
        some (l.map (renderTechnique m)) ∧
      (displayEducationalInsights ins).2 = none) ∧
    (∀ ins : Insights, ∀ l : List String,
      ins.manipulation_techniques_detected = some l → ¬ l = [] →
      ins.technique_explanations = none →
      (displayEducationalInsights ins).1 = emptyEduView ∧
      (displayEducationalInsights ins).2 = some JsError.typeError) ∧
    (∀ m : List (String × Explanation), ∀ l : List String,
      (l.map (renderTechnique m)).map (fun t => t.name) = l) ∧
    (∀ m : List (String × Explanation), ∀ tech : String, ∀ e : Explanation,
      lookupExplanation m tech = some e → ¬ e.description = "" →
      (renderTechnique m tech).description = e.description) ∧
    (∀ m : List (String × Explanation), ∀ tech : String, ∀ e : Explanation,
      lookupExplanation m tech = some e → e.description = "" →
      (renderTechnique m tech).description =
        "Technique used to mislead readers") ∧
    (∀ m : List (String × Explanation), ∀ tech : String,
      lookupExplanation m tech = none →
      (renderTechnique m tech).description =
        "Technique used to mislead readers") := by
  refine ⟨?_, ?_, ?_, ?_, ?_, ?_⟩
  · intro ins l m h1 h2 h3
    unfold displayEducationalInsights
    rw [h1, h3]
    simp [List.length_pos.mpr h2]
  · intro ins l h1 h2 h3
    unfold displayEducationalInsights
    rw [h1, h3]
    simp [List.length_pos.mpr h2]
  · intro m l
    induction l with
    | nil => rfl
    | cons a t ih => simp [renderTechnique, ih]
  · intro m tech e h1 h2
    simp [renderTechnique, h1, jsOrString, h2]
  · intro m tech e h1 h2
    simp [renderTechnique, h1, jsOrString, h2]
  · intro m tech h1
    simp [renderTechnique, h1, jsOrString]

/-- Witness for C9's amended statement on a concrete insights payload with
one explained and one unexplained technique. -/
theorem displayEducationalInsights_techniques_witness :
    (displayEducationalInsights
        (Insights.mk (some ["fear", "spin"])
          (some [("fear", Explanation.mk "scares readers" none)])
          none)).1.techniques =
      some
        (["fear", "spin"].map
          (renderTechnique [("fear", Explanation.mk "scares readers" none)])) ∧
    (displayEducationalInsights
        (Insights.mk (some ["fear", "spin"])
          (some [("fear", Explanation.mk "scares readers" none)])
          none)).2 = none :=
  displayEducationalInsights_techniques.1
    (Insights.mk (some ["fear", "spin"])
      (some [("fear", Explanation.mk "scares readers" none)]) none)
    ["fear", "spin"] [("fear", Explanation.mk "scares readers" none)]
    rfl (by decide) rfl

/-- C10: once an analysis invocation resolves, the loading modal is off:
for non-empty text and for every image submission, whatever the fetch
outcome (rendered result, HTTP error, network or parse failure, or an
exception thrown mid-render), `finally` hides the modal; and a text
submission rejected by local validation never shows it in the first place
(the flag is left exactly as it was). -/
theorem loading_cleared_after_analysis :
    (∀ input : String, ∀ fetch : FetchOutcome, ∀ d : Dom,
      ¬ jsTrim input = "" →
      (analyzeText input fetch d).1.loadingVisible = false) ∧
    (∀ input : String, ∀ fetch : FetchOutcome, ∀ d : Dom,
      jsTrim input = "" →
      (analyzeText input fetch d).1.loadingVisible = d.loadingVisible) ∧
    (∀ f : JsFile, ∀ fetch : FetchOutcome, ∀ d : Dom,
      (analyzeImage f fetch d).1.loadingVisible = false) := by
  refine ⟨?_, ?_, ?_⟩
  · intro input fetch d h
    unfold analyzeText
    rw [if_neg h]
  · intro input fetch d h
    unfold analyzeText
    rw [if_pos h]
  · intro f fetch d
    unfold analyzeImage
    cases fetch <;> rfl

/-- Witness for C10: a failing network call on non-empty text still ends
with the loading modal hidden. -/
theorem loading_cleared_after_analysis_witness :
    (analyzeText "hello" FetchOutcome.networkError {}).1.loadingVisible =
      false :=
  loading_cleared_after_analysis.1 "hello" FetchOutcome.networkError {}
    (by decide)

end TruthGuard
